import Mathlib

set_option maxHeartbeats 2000000

/-
  Verification development for gst-camera-rs (src/main.rs).

  The program is shallowly embedded as pure Lean functions over an explicit
  effect trace.  External collaborators (GStreamer element factories, property
  setting, pipeline add/link, the bus, state transitions) are parameterised by
  an environment recording which of these external calls succeed; the control
  flow, the values passed to collaborators, and the order of effects are
  transcribed from the Rust source.  Panics (Vec indexing out of bounds,
  Option unwrap) are modelled as a distinct outcome.
-/

namespace GstCameraRs

/-- The gst::State values used by the program (gst::State). -/
inductive GstState
  | voidPending
  | null
  | ready
  | paused
  | playing
deriving DecidableEq, Repr

/-- Debug rendering of a gst::State, as used in the StateChanged log line. -/
def GstState.debugName : GstState → String
  | .voidPending => "VoidPending"
  | .null => "Null"
  | .ready => "Ready"
  | .paused => "Paused"
  | .playing => "Playing"

/-- Values passed to set_property in main.rs: strings, u32, u64, bool, caps. -/
inductive CapsVal
  | i32 (n : Int)
  | str (s : String)
deriving DecidableEq, Repr

/-- A gst::Caps value: media type plus fields (gst::Caps::builder). -/
structure Caps where
  media : String
  fields : List (String × CapsVal)
deriving DecidableEq, Repr

/-- The caps set on the video_filter capsfilter (image/jpeg 2592x1944). -/
def videoCaps : Caps :=
  ⟨"image/jpeg", [("width", .i32 2592), ("height", .i32 1944)]⟩

/-- The caps set on the h264_filter capsfilter (video/x-h264, profile high). -/
def encodeCaps : Caps :=
  ⟨"video/x-h264", [("profile", .str "high")]⟩

/-- A property value handed to Element::set_property. -/
inductive PropValue
  | str (s : String)
  | u32 (n : Nat)
  | u64 (n : Nat)
  | boolean (b : Bool)
  | caps (c : Caps)
deriving DecidableEq, Repr

/-- The error taxonomy of main.rs.  usage, missingElement and watchFailed
carry the display text declared by their fail(display) attributes; the
remaining constructors stand for errors originating in glib/gstreamer calls
(gst::init, set_property, add_many, link_many, set_state) whose display
strings come from the external library and are abstracted here. -/
inductive RunError
  | usage (prog : String)
  | initFailed
  | missingElement (factory : String)
  | setPropFailed (prop : String)
  | addFailed
  | linkFailed
  | watchFailed
  | stateChangeFailed
deriving DecidableEq, Repr

/-- Display implementation of the error types (the fail(display) attributes);
glib-originating messages are abstracted by fixed placeholder text. -/
def RunError.display : RunError → String
  | .usage prog => "Usage: " ++ prog ++ " <device> <location>"
  | .initFailed => "gstreamer error"
  | .missingElement f => "Missing element " ++ f
  | .setPropFailed p => "failed to set property " ++ p
  | .addFailed => "could not add elements"
  | .linkFailed => "could not link elements"
  | .watchFailed => "Bus watch error"
  | .stateChangeFailed => "Element failed to change its state"

/-- A runtime gst element: factory kind plus the optional instance name
given to ElementFactory::make. -/
structure Element where
  factory : String
  name : Option String
deriving DecidableEq, Repr

/-- gst::ElementFactory::make, parameterised by the set of registered
factory kind names: returns an element exactly when the kind is registered,
None otherwise. -/
def ElementFactory.make (registry : List String) (factory : String)
    (name : Option String) : Option Element :=
  if factory ∈ registry then some ⟨factory, name⟩ else none

/-- The make_element helper of main.rs: ElementFactory::make with the
None case mapped to a MissingElement error naming the factory kind. -/
def make_element (registry : List String) (factory : String)
    (name : Option String) : Except RunError Element :=
  match ElementFactory.make registry factory name with
  | some elem => .ok elem
  | none => .error (.missingElement factory)

/-- Observable effects of a run, in program order: stdout and stderr lines,
calls into gstreamer (element construction, property sets, add/link, bus
watch, state transitions), the main loop, and bus-watch removal. -/
inductive Effect
  | println (s : String)
  | eprintln (s : String)
  | gstInitCall
  | newPipeline (name : String)
  | factoryMake (factory : String) (name : Option String)
  | setProp (factory : String) (name : Option String) (prop : String) (v : PropValue)
  | addMany (labels : List String)
  | linkMany (labels : List String)
  | getBus
  | addWatch
  | setState (s : GstState)
  | runMainLoop
  | sourceRemove
deriving DecidableEq, Repr

/-- The messages dispatched to the bus watch callback (gst::MessageView).
error and warning carry get_src (optional source path), the glib error
description, and the optional debug string. -/
inductive MessageView
  | eos
  | error (src : Option String) (err : String) (debug : Option String)
  | warning (src : Option String) (err : String) (debug : Option String)
  | stateChanged (src : Option String) (old current pending : GstState)
  | other
deriving DecidableEq, Repr

/-- Constructor tag of a message, standing in for the Debug rendering used
by the unconditional Got-message log line. -/
def MessageView.tag : MessageView → String
  | .eos => "Eos"
  | .error _ _ _ => "Error"
  | .warning _ _ _ => "Warning"
  | .stateChanged _ _ _ _ => "StateChanged"
  | .other => "Other"

/-- A message is terminal when its branch of the callback quits the main
loop (Eos and Error branches). -/
def MessageView.terminal : MessageView → Bool
  | .eos => true
  | .error _ _ _ => true
  | _ => false

/-- A message makes the callback panic when its branch unwraps an absent
debug string (Error and Warning branches both call get_debug unwrap). -/
def MessageView.panics : MessageView → Bool
  | .error _ _ none => true
  | .warning _ _ none => true
  | _ => false

/-- The ErrorMessage struct of main.rs. -/
structure ErrorMessage where
  src : String
  error : String
  debug : Option String
  cause : String
deriving DecidableEq, Repr

/-- Rust Debug rendering of an Option String value. -/
def optStrDebug : Option String → String
  | none => "None"
  | some s => "Some(\"" ++ s ++ "\")"

/-- The fail(display) format of ErrorMessage. -/
def ErrorMessage.display (m : ErrorMessage) : String :=
  "Received error from " ++ m.src ++ ": " ++ m.error ++ " (debug: " ++
    optStrDebug m.debug ++ ")"

/-- msg.get_src().map(path_string).unwrap_or(None-string). -/
def srcString : Option String → String
  | some s => s
  | none => "None"

/-- The StateChanged log line. -/
def stateChangedLine (src : Option String) (old current pending : GstState) :
    String :=
  "State changed from " ++ optStrDebug src ++ ": " ++ old.debugName ++
    " -> " ++ current.debugName ++ " (" ++ pending.debugName ++ ")"

/-- State of the glib MainLoop shared with the callback: whether run() is
still blocking, and how many times the blocked control context has been
released (a release happens at the transition from running to stopped). -/
structure LoopState where
  running : Bool
  releases : Nat
deriving DecidableEq, Repr

/-- glib MainLoop quit: stops a running loop (releasing the blocked control
context once); quitting an already stopped loop changes nothing. -/
def MainLoop.quit (ls : LoopState) : LoopState :=
  if ls.running then ⟨false, ls.releases + 1⟩ else ls

/-- Result of dispatching bus messages: loop state, effect trace so far, and
whether dispatch completed without panicking (okFlag false means a panic on
the event-delivery context). -/
structure DispatchOut where
  loopState : LoopState
  trace : List Effect
  okFlag : Bool
deriving DecidableEq, Repr

/-- The bus watch callback of main.rs, one message at a time.  Transcribed
branch by branch: the unconditional Got-message log; Eos logs and quits;
Error builds an ErrorMessage (unwrapping the debug string: an absent debug
is a panic), reports it on stderr and quits; Warning builds the same record
and reports it on stderr without quitting; StateChanged logs; anything else
is ignored.  The callback always returns Continue(true). -/
def dispatchMessage (msg : MessageView) (ls : LoopState) (tr : List Effect) :
    DispatchOut :=
  let tr := tr ++ [.println ("Got " ++ msg.tag ++ " message")]
  match msg with
  | .eos =>
    ⟨MainLoop.quit ls, tr ++ [.println "End of stream."], true⟩
  | .error src err debug =>
    match debug with
    | none => ⟨ls, tr, false⟩
    | some d =>
      ⟨MainLoop.quit ls,
       tr ++ [.eprintln ("Error: " ++
         ErrorMessage.display ⟨srcString src, err, some d, err⟩)],
       true⟩
  | .warning src err debug =>
    match debug with
    | none => ⟨ls, tr, false⟩
    | some d =>
      ⟨ls,
       tr ++ [.eprintln ("Warning: " ++
         ErrorMessage.display ⟨srcString src, err, some d, err⟩)],
       true⟩
  | .stateChanged src old current pending =>
    ⟨ls, tr ++ [.println (stateChangedLine src old current pending)], true⟩
  | .other => ⟨ls, tr, true⟩

/-- Deliver a list of simulated bus messages to the callback in order,
stopping early only if a dispatch panics. -/
def deliverAll : List MessageView → LoopState → List Effect → DispatchOut
  | [], ls, tr => ⟨ls, tr, true⟩
  | m :: rest, ls, tr =>
    let d := dispatchMessage m ls tr
    if d.okFlag = true then deliverAll rest d.loopState d.trace else d

/-- Loop state after delivering a message list to a freshly started loop. -/
def loopAfter (msgs : List MessageView) : LoopState :=
  (deliverAll msgs ⟨true, 0⟩ []).loopState

/-- Whether delivering a message list completes without a callback panic. -/
def deliveryOk (msgs : List MessageView) : Bool :=
  (deliverAll msgs ⟨true, 0⟩ []).okFlag

/-- Environment: which external collaborator calls succeed, plus the
simulated bus messages delivered while the main loop runs.  propFails lists
(element label, property) pairs whose set_property call fails. -/
structure Env where
  registry : List String
  initOk : Bool
  propFails : List (String × String)
  addOk : Bool
  linkOk : Bool
  hasBus : Bool
  watchOk : Bool
  playOk : Bool
  stopOk : Bool
  messages : List MessageView
deriving DecidableEq, Repr

/-- Whether set_property on the element with the given source-variable
label succeeds for the given property. -/
def propOk (env : Env) (label prop : String) : Bool :=
  !(env.propFails.contains (label, prop))

/-- Outcome of run(): normal return, an error return, a panic, or blocking
forever in main_loop.run() because no delivered message quits the loop. -/
inductive Outcome
  | ok
  | error (e : RunError)
  | panicked
  | blocked
deriving DecidableEq, Repr

/-- Result of run(): outcome plus the effect trace in program order. -/
structure RunResult where
  outcome : Outcome
  trace : List Effect
deriving DecidableEq, Repr

/-- One element-construction or property-configuration step of the build
section of run().  make carries the factory kind, the instance name, and
the name reported by its ok_or(MissingElement(..)) (for encode_queue the
reported name differs from the factory kind).  makeHelper is a step going
through the make_element helper. -/
inductive BuildStep
  | make (factory : String) (name : Option String) (errName : String)
  | makeHelper (factory : String) (name : Option String)
  | prop (label factory : String) (name : Option String) (propName : String)
      (v : PropValue)
deriving DecidableEq, Repr

/-- Execute one build step: record the external call in the trace, then
either continue or early-return the corresponding error result. -/
def execStep (env : Env) (tr : List Effect) :
    BuildStep → Except RunResult (List Effect)
  | .make factory name errName =>
    match ElementFactory.make env.registry factory name with
    | some _ => .ok (tr ++ [.factoryMake factory name])
    | none => .error ⟨.error (.missingElement errName),
        tr ++ [.factoryMake factory name]⟩
  | .makeHelper factory name =>
    match make_element env.registry factory name with
    | .ok _ => .ok (tr ++ [.factoryMake factory name])
    | .error e => .error ⟨.error e, tr ++ [.factoryMake factory name]⟩
  | .prop label factory name propName v =>
    if propOk env label propName = true then
      .ok (tr ++ [.setProp factory name propName v])
    else
      .error ⟨.error (.setPropFailed propName),
        tr ++ [.setProp factory name propName v]⟩

/-- Execute build steps in order, stopping at the first failure. -/
def execSteps (env : Env) (tr : List Effect) :
    List BuildStep → Except RunResult (List Effect)
  | [] => .ok tr
  | s :: rest =>
    match execStep env tr s with
    | .ok tr2 => execSteps env tr2 rest
    | .error r => .error r

/-- The element creation and configuration section of run(), transcribed in
source order: v4l2src and its device property; the video capsfilter (made
through make_element with no instance name) and its image/jpeg caps;
jpegdec; the encode queue (factory queue, named encode_queue, with the
MissingElement error reporting encode_queue); x264enc and its key-int-max;
the named h264_filter capsfilter and its video/x-h264 caps; h264parse;
splitmuxsink with location, max-size-time of 10 seconds in nanoseconds, and
send-keyframe-requests. -/
def cameraSteps (device location : String) : List BuildStep :=
  [ .make "v4l2src" (some "v4l2src") "v4l2src",
    .prop "v4l2src" "v4l2src" (some "v4l2src") "device" (.str device),
    .makeHelper "capsfilter" none,
    .prop "video_filter" "capsfilter" none "caps" (.caps videoCaps),
    .make "jpegdec" (some "jpegdec") "jpegdec",
    .make "queue" (some "encode_queue") "encode_queue",
    .make "x264enc" (some "x264enc") "x264enc",
    .prop "x264enc" "x264enc" (some "x264enc") "key-int-max" (.u32 10),
    .make "capsfilter" (some "h264_filter") "h264_filter",
    .prop "h264_filter" "capsfilter" (some "h264_filter") "caps"
      (.caps encodeCaps),
    .make "h264parse" (some "h264parse") "h264parse",
    .make "splitmuxsink" (some "splitmuxsink") "splitmuxsink",
    .prop "splitmuxsink" "splitmuxsink" (some "splitmuxsink") "location"
      (.str location),
    .prop "splitmuxsink" "splitmuxsink" (some "splitmuxsink") "max-size-time"
      (.u64 10000000000),
    .prop "splitmuxsink" "splitmuxsink" (some "splitmuxsink")
      "send-keyframe-requests" (.boolean true) ]

/-- The eight elements handed to add_many and link_many, in order, labelled
by their source variable names. -/
def pipelineChain : List String :=
  ["v4l2src", "video_filter", "jpegdec", "encode_queue", "x264enc",
   "h264_filter", "h264parse", "splitmuxsink"]

/-- After element construction: add_many, link_many, get_bus (an absent bus
is an expect panic), add_watch (None is the WatchError).  On success the
watcher is attached and control returns to run(). -/
def afterElements (env : Env) (r : Except RunResult (List Effect)) :
    RunResult :=
  match r with
  | .error res => res
  | .ok tr =>
    if env.addOk = false then
      ⟨.error .addFailed, tr ++ [.addMany pipelineChain]⟩
    else if env.linkOk = false then
      ⟨.error .linkFailed, tr ++ [.addMany pipelineChain, .linkMany pipelineChain]⟩
    else if env.hasBus = false then
      ⟨.panicked, tr ++ [.addMany pipelineChain, .linkMany pipelineChain, .getBus]⟩
    else if env.watchOk = false then
      ⟨.error .watchFailed,
       tr ++ [.addMany pipelineChain, .linkMany pipelineChain, .getBus, .addWatch]⟩
    else
      ⟨.ok,
       tr ++ [.addMany pipelineChain, .linkMany pipelineChain, .getBus, .addWatch]⟩

/-- The build section of run(): gst::init, the pipeline, the elements and
their configuration, add/link, bus and watch registration. -/
def buildPipeline (env : Env) (device location : String) (tr0 : List Effect) :
    RunResult :=
  if env.initOk = false then ⟨.error .initFailed, tr0 ++ [.gstInitCall]⟩
  else
    afterElements env
      (execSteps env (tr0 ++ [.gstInitCall, .newPipeline "camera-recorder"])
        (cameraSteps device location))

/-- After main_loop.run() returns (or fails to): a callback panic is a
process panic; a loop that was never quit blocks forever; otherwise run()
logs Stopping, requests the Null transition (a failure there early-returns
before the watch removal), and finally removes the bus watch. -/
def afterLoopExit (env : Env) (d : DispatchOut) : RunResult :=
  if d.okFlag = false then ⟨.panicked, d.trace⟩
  else if d.loopState.running = true then ⟨.blocked, d.trace⟩
  else if env.stopOk = false then
    ⟨.error .stateChangeFailed,
     d.trace ++ [.println "Stopping...", .setState .null]⟩
  else
    ⟨.ok,
     d.trace ++ [.println "Stopping...", .setState .null, .sourceRemove]⟩

/-- The tail of run() after the watcher is attached: log Now playing,
request the Playing transition (a failure early-returns), log Running, run
the main loop delivering the simulated messages, then the cleanup tail. -/
def runFromPlay (env : Env) (tr0 : List Effect) : RunResult :=
  if env.playOk = false then
    ⟨.error .stateChangeFailed,
     tr0 ++ [.println "Now playing", .setState .playing]⟩
  else
    afterLoopExit env
      (deliverAll env.messages ⟨true, 0⟩
        (tr0 ++ [.println "Now playing", .setState .playing,
                 .println "Running...", .runMainLoop]))

/-- Continue run() after the build section: only a successful build reaches
the Playing request; every other result is returned as is. -/
def runAfterBuild (env : Env) (r : RunResult) : RunResult :=
  match r.outcome with
  | .ok => runFromPlay env r.trace
  | _ => r

/-- The run() function.  The arity check reads args index 0 to build the
UsageError, so an empty argument vector panics on out-of-bounds indexing;
with exactly three arguments the device and location are read from indices
1 and 2 and the device and location line is printed before the build. -/
def run (env : Env) (args : List String) : RunResult :=
  if args.length ≠ 3 then
    match args with
    | [] => ⟨.panicked, []⟩
    | prog :: _ => ⟨.error (.usage prog), []⟩
  else
    runAfterBuild env
      (buildPipeline env (args.getD 1 "") (args.getD 2 "")
        [.println ("device: " ++ args.getD 1 "" ++ " location: " ++
          args.getD 2 "")])

/-- The main() function: an Ok result is returned as is; an Err is printed
to stderr with the Error! prefix and main returns normally, so the process
exit status is the same as for the Ok case. -/
def mainRun (env : Env) (args : List String) : RunResult :=
  match run env args with
  | ⟨.ok, tr⟩ => ⟨.ok, tr⟩
  | ⟨.error e, tr⟩ => ⟨.ok, tr ++ [.eprintln ("Error! " ++ e.display)]⟩
  | r => r

/-- Process exit code: main returning unit exits 0 (for both the Ok and the
caught Err branches); a Rust panic aborts with the standard panic exit code
101; a run blocked forever in the main loop never exits. -/
def exitCode (env : Env) (args : List String) : Option Nat :=
  match (mainRun env args).outcome with
  | .ok => some 0
  | .error _ => some 0
  | .panicked => some 101
  | .blocked => none

/-- The stderr lines of a trace, in order. -/
def stderrOf (tr : List Effect) : List String :=
  tr.filterMap fun e =>
    match e with
    | .eprintln s => some s
    | _ => none

/-- The set_property calls of a trace, in order. -/
def setPropsOf (tr : List Effect) :
    List (String × Option String × String × PropValue) :=
  tr.filterMap fun e =>
    match e with
    | .setProp f n p v => some (f, n, p, v)
    | _ => none

/-- The set_state requests of a trace, in order. -/
def setStatesOf (tr : List Effect) : List GstState :=
  tr.filterMap fun e =>
    match e with
    | .setState s => some s
    | _ => none

/-- The factory registry containing every kind the program instantiates. -/
def goodRegistry : List String :=
  ["v4l2src", "capsfilter", "jpegdec", "queue", "x264enc", "h264parse",
   "splitmuxsink"]

/-- Environment in which every external call succeeds, parameterised by the
simulated bus messages. -/
def goodEnv (msgs : List MessageView) : Env :=
  ⟨goodRegistry, true, [], true, true, true, true, true, true, msgs⟩

/-- The simulated event sequence of the spec: three StateChanged events
walking Idle to Playing, a warning (with a debug string present), then
EndOfStream. -/
def c4Events (wsrc wmsg wdbg : String) : List MessageView :=
  [.stateChanged (some "pipeline0") .null .ready .voidPending,
   .stateChanged (some "pipeline0") .ready .paused .voidPending,
   .stateChanged (some "pipeline0") .paused .playing .voidPending,
   .warning (some wsrc) wmsg (some wdbg),
   .eos]

/-- Environment in which the Playing state request fails. -/
def envPlayFail : Env := { goodEnv [.eos] with playOk := false }

/-- Environment in which the final Null state request fails. -/
def envStopFail : Env := { goodEnv [.eos] with stopOk := false }

/-- Environment in which the jpegdec factory kind is not registered. -/
def envMissingJpegdec : Env :=
  { goodEnv [] with registry := ["v4l2src", "capsfilter"] }

/-- The loop state reached by a dispatch does not depend on the trace
accumulated so far. -/
theorem dispatch_loop_indep (m : MessageView) (ls : LoopState)
    (tr tr2 : List Effect) :
    (dispatchMessage m ls tr).loopState = (dispatchMessage m ls tr2).loopState := by
  cases m with
  | eos => rfl
  | error src err debug => cases debug <;> rfl
  | warning src err debug => cases debug <;> rfl
  | stateChanged src old current pending => rfl
  | other => rfl

/-- Whether a dispatch panics does not depend on the trace so far. -/
theorem dispatch_flag_indep (m : MessageView) (ls : LoopState)
    (tr tr2 : List Effect) :
    (dispatchMessage m ls tr).okFlag = (dispatchMessage m ls tr2).okFlag := by
  cases m with
  | eos => rfl
  | error src err debug => cases debug <;> rfl
  | warning src err debug => cases debug <;> rfl
  | stateChanged src old current pending => rfl
  | other => rfl

/-- A non-terminal, non-panicking message leaves the loop state unchanged
and does not panic. -/
theorem dispatch_clean (m : MessageView) (ls : LoopState) (tr : List Effect)
    (h1 : m.terminal = false) (h2 : m.panics = false) :
    (dispatchMessage m ls tr).loopState = ls ∧
      (dispatchMessage m ls tr).okFlag = true := by
  cases m with
  | eos => simp [MessageView.terminal] at h1
  | error src err debug => simp [MessageView.terminal] at h1
  | warning src err debug =>
    cases debug with
    | none => simp [MessageView.panics] at h2
    | some d => exact ⟨rfl, rfl⟩
  | stateChanged src old current pending => exact ⟨rfl, rfl⟩
  | other => exact ⟨rfl, rfl⟩

/-- Once the loop is stopped, no non-panicking message changes the loop
state: quitting an already stopped loop is a no-op. -/
theorem dispatch_stopped (m : MessageView) (ls : LoopState) (tr : List Effect)
    (hr : ls.running = false) (h2 : m.panics = false) :
    (dispatchMessage m ls tr).loopState = ls ∧
      (dispatchMessage m ls tr).okFlag = true := by
  cases m with
  | eos => exact ⟨by simp [dispatchMessage, MainLoop.quit, hr], rfl⟩
  | error src err debug =>
    cases debug with
    | none => simp [MessageView.panics] at h2
    | some d => exact ⟨by simp [dispatchMessage, MainLoop.quit, hr], rfl⟩
  | warning src err debug =>
    cases debug with
    | none => simp [MessageView.panics] at h2
    | some d => exact ⟨rfl, rfl⟩
  | stateChanged src old current pending => exact ⟨rfl, rfl⟩
  | other => exact ⟨rfl, rfl⟩

/-- Every dispatch either leaves the loop state unchanged or quits a
running loop, incrementing the release count exactly once. -/
theorem dispatch_cases (m : MessageView) (ls : LoopState) (tr : List Effect) :
    (dispatchMessage m ls tr).loopState = ls ∨
      (ls.running = true ∧
        (dispatchMessage m ls tr).loopState = ⟨false, ls.releases + 1⟩) := by
  have hq : MainLoop.quit ls = ls ∨
      (ls.running = true ∧ MainLoop.quit ls = ⟨false, ls.releases + 1⟩) := by
    by_cases hr : ls.running = true
    · exact Or.inr ⟨hr, by simp [MainLoop.quit, hr]⟩
    · exact Or.inl (by simp [MainLoop.quit, hr])
  cases m with
  | eos => exact hq
  | error src err debug =>
    cases debug with
    | none => exact Or.inl rfl
    | some d => exact hq
  | warning src err debug =>
    cases debug with
    | none => exact Or.inl rfl
    | some d => exact Or.inl rfl
  | stateChanged src old current pending => exact Or.inl rfl
  | other => exact Or.inl rfl

/-- Unfolding equation for deliverAll on a cons cell. -/
theorem deliverAll_cons (m : MessageView) (rest : List MessageView)
    (ls : LoopState) (tr : List Effect) :
    deliverAll (m :: rest) ls tr =
      if (dispatchMessage m ls tr).okFlag = true then
        deliverAll rest (dispatchMessage m ls tr).loopState
          (dispatchMessage m ls tr).trace
      else dispatchMessage m ls tr := rfl

/-- The loop state and panic flag of a delivery do not depend on the trace
accumulated before it. -/
theorem deliverAll_indep (msgs : List MessageView) :
    ∀ ls tr tr2,
      (deliverAll msgs ls tr).loopState = (deliverAll msgs ls tr2).loopState ∧
      (deliverAll msgs ls tr).okFlag = (deliverAll msgs ls tr2).okFlag := by
  induction msgs with
  | nil => exact fun ls tr tr2 => ⟨rfl, rfl⟩
  | cons m rest ih =>
    intro ls tr tr2
    rw [deliverAll_cons, deliverAll_cons]
    have hf := dispatch_flag_indep m ls tr tr2
    have hl := dispatch_loop_indep m ls tr tr2
    by_cases h : (dispatchMessage m ls tr).okFlag = true
    · rw [if_pos h, if_pos (hf ▸ h), hl]
      exact ih _ _ _
    · rw [if_neg h, if_neg (hf ▸ h)]
      exact ⟨hl, hf⟩

/-- Delivering only non-terminal, non-panicking messages leaves the loop
state unchanged and never panics. -/
theorem deliverAll_clean (msgs : List MessageView) :
    (∀ m ∈ msgs, m.terminal = false ∧ m.panics = false) →
    ∀ ls tr, (deliverAll msgs ls tr).loopState = ls ∧
      (deliverAll msgs ls tr).okFlag = true := by
  induction msgs with
  | nil => exact fun _ ls tr => ⟨rfl, rfl⟩
  | cons m rest ih =>
    intro h ls tr
    have hm := h m (List.mem_cons_self m rest)
    have hd := dispatch_clean m ls tr hm.1 hm.2
    rw [deliverAll_cons, if_pos hd.2, hd.1]
    exact ih (fun x hx => h x (List.mem_cons_of_mem m hx)) ls _

/-- Once the loop is stopped, delivering any non-panicking messages leaves
the loop state unchanged: every later quit is a no-op. -/
theorem deliverAll_stopped (msgs : List MessageView) :
    (∀ m ∈ msgs, m.panics = false) →
    ∀ ls tr, ls.running = false →
      (deliverAll msgs ls tr).loopState = ls ∧
      (deliverAll msgs ls tr).okFlag = true := by
  induction msgs with
  | nil => exact fun _ ls tr _ => ⟨rfl, rfl⟩
  | cons m rest ih =>
    intro h ls tr hr
    have hd := dispatch_stopped m ls tr hr (h m (List.mem_cons_self m rest))
    rw [deliverAll_cons, if_pos hd.2, hd.1]
    exact ih (fun x hx => h x (List.mem_cons_of_mem m hx)) ls _ hr

/-- The release count after any delivery exceeds the initial count by at
most one, and only if the loop was still running: the blocked control
context is released at most once. -/
theorem deliverAll_releases (msgs : List MessageView) :
    ∀ ls tr, (deliverAll msgs ls tr).loopState.releases ≤
      ls.releases + (if ls.running = true then 1 else 0) := by
  induction msgs with
  | nil => exact fun ls tr => Nat.le_add_right _ _
  | cons m rest ih =>
    intro ls tr
    rw [deliverAll_cons]
    rcases dispatch_cases m ls tr with hA | ⟨hr, hB⟩
    · by_cases hf : (dispatchMessage m ls tr).okFlag = true
      · rw [if_pos hf, hA]
        exact ih ls _
      · rw [if_neg hf, hA]
        exact Nat.le_add_right _ _
    · by_cases hf : (dispatchMessage m ls tr).okFlag = true
      · rw [if_pos hf, hB]
        have h2 := ih ⟨false, ls.releases + 1⟩ (dispatchMessage m ls tr).trace
        simp only [LoopState.releases, LoopState.running] at h2
        simp only [Bool.false_eq_true, if_false, Nat.add_zero] at h2
        exact h2.trans (by rw [hr]; simp)
      · rw [if_neg hf, hB]
        rw [hr]; simp

/-- Delivery of an appended message list is delivery of the first part
followed, unless it panicked, by delivery of the second. -/
theorem deliverAll_append (a b : List MessageView) :
    ∀ ls tr, deliverAll (a ++ b) ls tr =
      if (deliverAll a ls tr).okFlag = true then
        deliverAll b (deliverAll a ls tr).loopState (deliverAll a ls tr).trace
      else deliverAll a ls tr := by
  induction a with
  | nil => intro ls tr; simp [deliverAll]
  | cons m rest ih =>
    intro ls tr
    rw [List.cons_append, deliverAll_cons, deliverAll_cons]
    by_cases hf : (dispatchMessage m ls tr).okFlag = true
    · rw [if_pos hf, if_pos hf]
      exact ih _ _
    · rw [if_neg hf, if_neg hf, if_neg hf]

/-- A dispatch only appends to the trace. -/
theorem dispatch_trace_mono (m : MessageView) (ls : LoopState)
    (tr : List Effect) :
    ∃ delta, (dispatchMessage m ls tr).trace = tr ++ delta := by
  cases m with
  | eos => exact ⟨_, List.append_assoc _ _ _⟩
  | error src err debug =>
    cases debug with
    | none => exact ⟨_, rfl⟩
    | some d => exact ⟨_, List.append_assoc _ _ _⟩
  | warning src err debug =>
    cases debug with
    | none => exact ⟨_, rfl⟩
    | some d => exact ⟨_, List.append_assoc _ _ _⟩
  | stateChanged src old current pending => exact ⟨_, List.append_assoc _ _ _⟩
  | other => exact ⟨_, rfl⟩

/-- A delivery only appends to the trace. -/
theorem deliverAll_trace_mono (msgs : List MessageView) :
    ∀ ls tr, ∃ delta, (deliverAll msgs ls tr).trace = tr ++ delta := by
  induction msgs with
  | nil => exact fun ls tr => ⟨[], by simp [deliverAll]⟩
  | cons m rest ih =>
    intro ls tr
    rw [deliverAll_cons]
    obtain ⟨d1, hd1⟩ := dispatch_trace_mono m ls tr
    by_cases hf : (dispatchMessage m ls tr).okFlag = true
    · rw [if_pos hf]
      obtain ⟨d2, hd2⟩ :=
        ih (dispatchMessage m ls tr).loopState (dispatchMessage m ls tr).trace
      exact ⟨d1 ++ d2, by rw [hd2, hd1, List.append_assoc]⟩
    · rw [if_neg hf]
      exact ⟨d1, hd1⟩

/-- Delivering clean events, then EndOfStream, then any non-panicking
events stops the loop with exactly one release, regardless of the trace. -/
theorem deliverAll_first_eos (es1 rest : List MessageView)
    (h1 : ∀ m ∈ es1, m.terminal = false ∧ m.panics = false)
    (h2 : ∀ m ∈ rest, m.panics = false) (tr : List Effect) :
    (deliverAll (es1 ++ .eos :: rest) ⟨true, 0⟩ tr).loopState = ⟨false, 1⟩ ∧
    (deliverAll (es1 ++ .eos :: rest) ⟨true, 0⟩ tr).okFlag = true := by
  have hc := deliverAll_clean es1 h1 ⟨true, 0⟩ tr
  rw [deliverAll_append, if_pos hc.2, hc.1, deliverAll_cons]
  have hde : (dispatchMessage .eos ⟨true, 0⟩
      (deliverAll es1 ⟨true, 0⟩ tr).trace).okFlag = true := rfl
  have hql : (dispatchMessage .eos ⟨true, 0⟩
      (deliverAll es1 ⟨true, 0⟩ tr).trace).loopState = ⟨false, 1⟩ := rfl
  rw [if_pos hde, hql]
  exact deliverAll_stopped rest h2 ⟨false, 1⟩ _ rfl

/-- The only error the post-watch tail can return is a state change
failure (of the stop request). -/
theorem afterLoopExit_error (env : Env) (d : DispatchOut) (e : RunError)
    (h : (afterLoopExit env d).outcome = .error e) : e = .stateChangeFailed := by
  unfold afterLoopExit at h
  split at h
  · exact absurd h (by simp)
  · split at h
    · exact absurd h (by simp)
    · split at h
      · exact (Outcome.error.inj h).symm
      · exact absurd h (by simp)

/-- The only error runFromPlay can return is a state change failure. -/
theorem runFromPlay_error (env : Env) (tr0 : List Effect) (e : RunError)
    (h : (runFromPlay env tr0).outcome = .error e) : e = .stateChangeFailed := by
  unfold runFromPlay at h
  split at h
  · exact (Outcome.error.inj h).symm
  · exact afterLoopExit_error env _ e h

/-- When the Playing and Null requests succeed and the delivered messages
stop the loop without a panic, runFromPlay completes the full cleanup tail:
stop request, then watch removal. -/
theorem runFromPlay_ok (env : Env) (tr0 : List Effect)
    (hp : env.playOk = true) (hs : env.stopOk = true)
    (hok : deliveryOk env.messages = true)
    (hq : (loopAfter env.messages).running = false) :
    runFromPlay env tr0 =
      ⟨.ok, (deliverAll env.messages ⟨true, 0⟩
          (tr0 ++ [.println "Now playing", .setState .playing,
                   .println "Running...", .runMainLoop])).trace ++
        [.println "Stopping...", .setState .null, .sourceRemove]⟩ := by
  have hind := deliverAll_indep env.messages ⟨true, 0⟩
    (tr0 ++ [.println "Now playing", .setState .playing,
             .println "Running...", .runMainLoop]) []
  have hf : (deliverAll env.messages ⟨true, 0⟩
      (tr0 ++ [.println "Now playing", .setState .playing,
               .println "Running...", .runMainLoop])).okFlag = true :=
    hind.2.trans hok
  have hrun : (deliverAll env.messages ⟨true, 0⟩
      (tr0 ++ [.println "Now playing", .setState .playing,
               .println "Running...", .runMainLoop])).loopState.running = false := by
    rw [hind.1]; exact hq
  unfold runFromPlay
  rw [if_neg (by simp [hp])]
  unfold afterLoopExit
  rw [if_neg (by simp [hf]), if_neg (by simp [hrun]), if_neg (by simp [hs])]

/-- runAfterBuild either continues into runFromPlay or returns the build
result untouched. -/
theorem runAfterBuild_cases (env : Env) (r : RunResult) :
    runAfterBuild env r = runFromPlay env r.trace ∨ runAfterBuild env r = r := by
  rcases r with ⟨o, tr⟩
  cases o <;> simp [runAfterBuild]

/-- A successful build continues into runFromPlay. -/
theorem runAfterBuild_ok (env : Env) (r : RunResult) (h : r.outcome = .ok) :
    runAfterBuild env r = runFromPlay env r.trace := by
  rcases r with ⟨o, tr⟩
  cases o with
  | ok => rfl
  | error e => exact absurd h (by simp)
  | panicked => exact absurd h (by simp)
  | blocked => exact absurd h (by simp)

/-- The trace carried by a build-section result, for both the continue and
the early-return cases. -/
def exceptTrace : Except RunResult (List Effect) → List Effect
  | .ok tr => tr
  | .error r => r.trace

/-- A build step never requests a state change: any setState effect in its
result trace was already in the incoming trace. -/
theorem execStep_trace_mem (env : Env) (tr : List Effect) (st : BuildStep)
    (s : GstState)
    (hm : Effect.setState s ∈ exceptTrace (execStep env tr st)) :
    Effect.setState s ∈ tr := by
  cases st <;> simp only [execStep] at hm <;> split at hm <;>
    simp [exceptTrace] at hm <;> exact hm

/-- The element construction section never requests a state change. -/
theorem execSteps_trace_mem (steps : List BuildStep) (env : Env)
    (s : GstState) :
    ∀ tr, Effect.setState s ∈ exceptTrace (execSteps env tr steps) →
      Effect.setState s ∈ tr := by
  induction steps with
  | nil => exact fun tr hm => hm
  | cons st rest ih =>
    intro tr hm
    simp only [execSteps] at hm
    cases hstep : execStep env tr st with
    | ok tr3 =>
      simp only [hstep] at hm
      exact execStep_trace_mem env tr st s (by rw [hstep]; exact ih tr3 hm)
    | error r =>
      simp only [hstep] at hm
      exact execStep_trace_mem env tr st s (by rw [hstep]; exact hm)

/-- The build phase never requests a state change: a setState effect in its
result trace was already in the incoming trace. -/
theorem buildPipeline_setState (env : Env) (dev loc : String)
    (tr0 : List Effect) (s : GstState)
    (h : Effect.setState s ∈ (buildPipeline env dev loc tr0).trace) :
    Effect.setState s ∈ tr0 := by
  unfold buildPipeline at h
  split at h
  · simpa using h
  · unfold afterElements at h
    split at h
    next res hres =>
      have h2 := execSteps_trace_mem _ env s _ (by rw [hres]; exact h)
      simpa using h2
    next tr hok =>
      have h2 : Effect.setState s ∈ tr := by
        split at h
        · simpa using h
        · split at h
          · simpa using h
          · split at h
            · simpa using h
            · split at h
              · simpa using h
              · simpa using h
      have h3 := execSteps_trace_mem _ env s _ (by rw [hok]; exact h2)
      simpa using h3

/-- With exactly three arguments, run proceeds past the arity check into
the build with device and location taken from indices 1 and 2. -/
theorem run_arity_ok (env : Env) (prog dev loc : String) :
    run env [prog, dev, loc] =
      runAfterBuild env
        (buildPipeline env dev loc
          [.println ("device: " ++ dev ++ " location: " ++ loc)]) := by
  unfold run
  rw [if_neg (by simp)]
  rfl

/-- In an all-successful environment whose messages stop the loop without a
panic, run completes normally and the process exits with code 0. -/
theorem run_goodEnv (msgs : List MessageView) (prog dev loc : String)
    (hok : deliveryOk msgs = true)
    (hq : (loopAfter msgs).running = false) :
    (run (goodEnv msgs) [prog, dev, loc]).outcome = .ok ∧
    exitCode (goodEnv msgs) [prog, dev, loc] = some 0 := by
  have hb : (buildPipeline (goodEnv msgs) dev loc
      [.println ("device: " ++ dev ++ " location: " ++ loc)]).outcome = .ok := rfl
  have hrun : run (goodEnv msgs) [prog, dev, loc] =
      runFromPlay (goodEnv msgs)
        (buildPipeline (goodEnv msgs) dev loc
          [.println ("device: " ++ dev ++ " location: " ++ loc)]).trace := by
    rw [run_arity_ok]
    exact runAfterBuild_ok _ _ hb
  have hfull := runFromPlay_ok (goodEnv msgs)
    (buildPipeline (goodEnv msgs) dev loc
      [.println ("device: " ++ dev ++ " location: " ++ loc)]).trace
    rfl rfl hok hq
  constructor
  · rw [hrun, hfull]
  · unfold exitCode mainRun
    rw [hrun, hfull]

/-- Claim C1, counterexample: the claim asserts a non-zero exit code after
a runtime Error event; on the code, for the spec scenario (an Error event
with source sink0 and message disk full delivered after Playing), main
catches nothing (run returns Ok after the loop quits) and the process exits
with code 0. -/
theorem claim_C1_counterexample :
    exitCode (goodEnv [.error (some "sink0") "disk full" (some "dbg")])
      ["prog", "dev", "loc"] = some 0 := rfl

/-- Claim C1, amended: after a runtime Error event the control loop quits,
requests the stop transition exactly once (one Null request after the one
Playing request), removes the bus watch last, and the single stderr line is
the formatted error record containing the source and the message; but the
process then terminates with exit code 0, the same code as a graceful
EndOfStream shutdown, because the error never reaches the process exit
status. -/
theorem claim_C1_amended (src msg dbg : String) :
    setStatesOf (mainRun (goodEnv [.error (some src) msg (some dbg)])
      ["prog", "dev", "loc"]).trace = [.playing, .null] ∧
    (mainRun (goodEnv [.error (some src) msg (some dbg)])
      ["prog", "dev", "loc"]).trace.getLast? = some .sourceRemove ∧
    stderrOf (mainRun (goodEnv [.error (some src) msg (some dbg)])
      ["prog", "dev", "loc"]).trace =
      ["Error: " ++ ErrorMessage.display ⟨src, msg, some dbg, msg⟩] ∧
    (mainRun (goodEnv [.error (some src) msg (some dbg)])
      ["prog", "dev", "loc"]).outcome = .ok ∧
    exitCode (goodEnv [.error (some src) msg (some dbg)])
      ["prog", "dev", "loc"] = some 0 :=
  ⟨rfl, rfl, rfl, rfl, rfl⟩

/-- Claim C2, counterexample: the claim asserts a non-zero exit for an
arity mismatch; on the code, with a single argument the usage message is
written to stderr but main swallows the error and the process exits with
code 0. -/
theorem claim_C2_counterexample :
    exitCode (goodEnv []) ["prog"] = some 0 ∧
    stderrOf (mainRun (goodEnv []) ["prog"]).trace =
      ["Error! Usage: prog <device> <location>"] := ⟨rfl, rfl⟩

/-- Claim C2, amended: for every non-empty argument vector whose length
differs from three, run returns the UsageError immediately with an empty
effect trace (so no stage construction happens), main prints the usage
message to stderr, and the process exits with code 0, not non-zero; an
empty argument vector instead panics (claim C9). -/
theorem claim_C2_amended (env : Env) (prog : String) (rest : List String)
    (h : (prog :: rest).length ≠ 3) :
    run env (prog :: rest) = ⟨.error (.usage prog), []⟩ ∧
    mainRun env (prog :: rest) =
      ⟨.ok, [.eprintln ("Error! " ++ RunError.display (.usage prog))]⟩ ∧
    exitCode env (prog :: rest) = some 0 ∧
    ∀ f n, Effect.factoryMake f n ∉ (mainRun env (prog :: rest)).trace := by
  have hr : run env (prog :: rest) = ⟨.error (.usage prog), []⟩ := by
    unfold run
    rw [if_pos h]
  have hm : mainRun env (prog :: rest) =
      ⟨.ok, [.eprintln ("Error! " ++ RunError.display (.usage prog))]⟩ := by
    unfold mainRun
    rw [hr]
    rfl
  refine ⟨hr, hm, ?_, ?_⟩
  · unfold exitCode
    rw [hm]
  · intro f n
    rw [hm]
    simp

/-- Witness for claim C2 at a concrete input: one argument, usage error,
no build. -/
theorem claim_C2_witness :
    run (goodEnv []) ["prog"] = ⟨.error (.usage "prog"), []⟩ :=
  (claim_C2_amended (goodEnv []) "prog" [] (by decide)).1

/-- Claim C3, counterexample: cleanup is not unconditional after the
watcher is attached.  If the Playing request fails, run early-returns
before the loop: no stop request and no watch removal appear in the trace;
if the final Null request fails, run early-returns between the stop request
and the watch removal: the watch is never removed. -/
theorem claim_C3_counterexample :
    (run envPlayFail ["p", "d", "l"]).outcome = .error .stateChangeFailed ∧
    Effect.setState .null ∉ (run envPlayFail ["p", "d", "l"]).trace ∧
    Effect.sourceRemove ∉ (run envPlayFail ["p", "d", "l"]).trace ∧
    Effect.setState .null ∈ (run envStopFail ["p", "d", "l"]).trace ∧
    Effect.sourceRemove ∉ (run envStopFail ["p", "d", "l"]).trace := by
  refine ⟨rfl, ?_, ?_, ?_, ?_⟩ <;> decide

/-- Claim C3, amended: on the exit paths where the main loop actually runs
and is quit by a delivered event (EndOfStream or runtime Error, no callback
panic) and the stop transition itself succeeds, the post-watch tail does
perform the full cleanup: the Playing request, the stop (Null) request and
the watch removal all appear in the trace and the run completes normally.
A failing start request skips both cleanup steps and a failing stop request
skips the watch removal (see the counterexample). -/
theorem claim_C3_amended (env : Env) (tr0 : List Effect)
    (hp : env.playOk = true) (hs : env.stopOk = true)
    (hok : deliveryOk env.messages = true)
    (hq : (loopAfter env.messages).running = false) :
    (runFromPlay env tr0).outcome = .ok ∧
    Effect.setState .playing ∈ (runFromPlay env tr0).trace ∧
    Effect.setState .null ∈ (runFromPlay env tr0).trace ∧
    Effect.sourceRemove ∈ (runFromPlay env tr0).trace := by
  have hfull := runFromPlay_ok env tr0 hp hs hok hq
  rw [hfull]
  obtain ⟨delta, hdelta⟩ := deliverAll_trace_mono env.messages ⟨true, 0⟩
    (tr0 ++ [.println "Now playing", .setState .playing,
             .println "Running...", .runMainLoop])
  refine ⟨rfl, ?_, ?_, ?_⟩
  · simp [hdelta]
  · simp
  · simp

/-- Witness for claim C3 at a concrete input: a single EndOfStream event in
the all-successful environment. -/
theorem claim_C3_witness :
    (runFromPlay (goodEnv [.eos]) []).outcome = .ok :=
  (claim_C3_amended (goodEnv [.eos]) [] rfl rfl (by decide) (by decide)).1

/-- Claim C4, confirmed: for the spec event sequence (three StateChanged
events, a warning carrying a debug string, EndOfStream), the loop is still
running after the prefix before EndOfStream, the warning is surfaced
exactly once as the only stderr line, the run completes normally with exit
code 0 after EndOfStream, and dispatching any Warning or StateChanged event
never changes the loop state. -/
theorem claim_C4 (wsrc wmsg wdbg : String) :
    (loopAfter (c4Events wsrc wmsg wdbg).dropLast).running = true ∧
    stderrOf (mainRun (goodEnv (c4Events wsrc wmsg wdbg))
      ["prog", "dev", "loc"]).trace =
      ["Warning: " ++ ErrorMessage.display ⟨wsrc, wmsg, some wdbg, wmsg⟩] ∧
    (mainRun (goodEnv (c4Events wsrc wmsg wdbg))
      ["prog", "dev", "loc"]).outcome = .ok ∧
    exitCode (goodEnv (c4Events wsrc wmsg wdbg)) ["prog", "dev", "loc"]
      = some 0 ∧
    (∀ src err d ls tr,
      (dispatchMessage (.warning src err (some d)) ls tr).loopState = ls) ∧
    (∀ src a b c ls tr,
      (dispatchMessage (.stateChanged src a b c) ls tr).loopState = ls) := by
  refine ⟨?_, ?_, ?_, ?_, fun _ _ _ _ _ => rfl, fun _ _ _ _ _ _ => rfl⟩ <;>
    simp [run, buildPipeline, afterElements, execSteps, execStep, cameraSteps,
      make_element, ElementFactory.make, propOk, goodEnv, goodRegistry,
      runAfterBuild, runFromPlay, afterLoopExit, deliverAll, dispatchMessage,
      MainLoop.quit, stderrOf, loopAfter, exitCode, mainRun, c4Events,
      ErrorMessage.display, optStrDebug, srcString, stateChangedLine,
      GstState.debugName, MessageView.tag, pipelineChain, videoCaps,
      encodeCaps]

/-- Claim C5, confirmed: the termination signal (the quit flag of the main
loop) is set at most once in the sense that the blocked control context is
released at most once for any event sequence; and for a sequence with an
EndOfStream followed later by an Error event, the loop state after delivery
equals the state immediately after the first terminating event (one
release, later quits are no-ops that do not overwrite it) and the run
terminates as a graceful shutdown with exit code 0, the outcome of the
first-observed signal. -/
theorem claim_C5 (es1 es2 es3 : List MessageView) (src m d : String)
    (h1 : ∀ e ∈ es1, e.terminal = false ∧ e.panics = false)
    (h2 : ∀ e ∈ es2, e.panics = false)
    (h3 : ∀ e ∈ es3, e.panics = false) :
    (loopAfter (es1 ++ .eos :: (es2 ++ .error (some src) m (some d) :: es3))).releases
      = 1 ∧
    loopAfter (es1 ++ .eos :: (es2 ++ .error (some src) m (some d) :: es3))
      = loopAfter (es1 ++ [.eos]) ∧
    (∀ msgs : List MessageView, (loopAfter msgs).releases ≤ 1) ∧
    (run (goodEnv (es1 ++ .eos :: (es2 ++ .error (some src) m (some d) :: es3)))
      ["prog", "dev", "loc"]).outcome = .ok ∧
    exitCode (goodEnv (es1 ++ .eos :: (es2 ++ .error (some src) m (some d) :: es3)))
      ["prog", "dev", "loc"] = some 0 := by
  have hrest : ∀ e ∈ es2 ++ MessageView.error (some src) m (some d) :: es3,
      e.panics = false := by
    intro e he
    rcases List.mem_append.1 he with h | h
    · exact h2 e h
    · rcases List.mem_cons.1 h with rfl | h
      · rfl
      · exact h3 e h
    
  have key := deliverAll_first_eos es1
    (es2 ++ MessageView.error (some src) m (some d) :: es3) h1 hrest []
  have keyE := deliverAll_first_eos es1 [] h1 (by simp) []
  have hq : (loopAfter
      (es1 ++ .eos :: (es2 ++ .error (some src) m (some d) :: es3))).running
      = false := by
    unfold loopAfter
    rw [key.1]
  have hok : deliveryOk
      (es1 ++ .eos :: (es2 ++ .error (some src) m (some d) :: es3)) = true := key.2
  have hmain := run_goodEnv
    (es1 ++ .eos :: (es2 ++ .error (some src) m (some d) :: es3))
    "prog" "dev" "loc" hok hq
  refine ⟨?_, ?_, ?_, hmain.1, hmain.2⟩
  · unfold loopAfter
    rw [key.1]
  · unfold loopAfter
    rw [key.1, keyE.1]
  · intro msgs
    have hb := deliverAll_releases msgs ⟨true, 0⟩ []
    simpa [loopAfter] using hb

/-- Witness for claim C5 at a concrete input: a clean StateChanged, then
EndOfStream, then an Error event. -/
theorem claim_C5_witness :
    (loopAfter ([MessageView.stateChanged none .null .ready .voidPending] ++
      .eos :: ([] ++
        .error (some "sink0") "disk full" (some "dbg") ::
          [MessageView.warning (some "w0") "wm" (some "wd")]))).releases = 1 :=
  (claim_C5 [MessageView.stateChanged none .null .ready .voidPending] []
    [MessageView.warning (some "w0") "wm" (some "wd")] "sink0" "disk full"
    "dbg" (by decide) (by decide) (by decide)).1

/-- Claim C6, confirmed: in the successful run the set_property calls are
exactly, in order: the device identifier from the first CLI argument on the
capture stage; the fixed compressed-still-image caps (image/jpeg of fixed
width 2592 and height 1944) on the input filter; the maximum keyframe
interval 10 on the encoder; the fixed high profile on the output-format
filter; and on the sink the location template unmodified, the maximum
segment duration of 10 seconds (in nanoseconds), and the keyframe-request
flag set. -/
theorem claim_C6 (prog device location : String) :
    setPropsOf (run (goodEnv [.eos]) [prog, device, location]).trace =
      [("v4l2src", some "v4l2src", "device", .str device),
       ("capsfilter", none, "caps",
         .caps ⟨"image/jpeg", [("width", .i32 2592), ("height", .i32 1944)]⟩),
       ("x264enc", some "x264enc", "key-int-max", .u32 10),
       ("capsfilter", some "h264_filter", "caps",
         .caps ⟨"video/x-h264", [("profile", .str "high")]⟩),
       ("splitmuxsink", some "splitmuxsink", "location", .str location),
       ("splitmuxsink", some "splitmuxsink", "max-size-time",
         .u64 (10 * 1000000000)),
       ("splitmuxsink", some "splitmuxsink", "send-keyframe-requests",
         .boolean true)] := by
  simp [run, buildPipeline, afterElements, execSteps, execStep, cameraSteps,
    make_element, ElementFactory.make, propOk, goodEnv, goodRegistry,
    runAfterBuild, runFromPlay, afterLoopExit, deliverAll, dispatchMessage,
    MainLoop.quit, setPropsOf, videoCaps, encodeCaps, MessageView.tag,
    pipelineChain]

/-- Claim C7, confirmed: for every factory kind that is not registered,
element construction fails closed: make_element returns the MissingElement
error naming exactly the missing kind, and the factory returns no element
at all, so nothing is constructed in its place. -/
theorem claim_C7 (registry : List String) (factory : String)
    (name : Option String) (h : factory ∉ registry) :
    make_element registry factory name = .error (.missingElement factory) ∧
    ElementFactory.make registry factory name = none := by
  have hm : ElementFactory.make registry factory name = none := by
    unfold ElementFactory.make
    rw [if_neg h]
  exact ⟨by unfold make_element; rw [hm], hm⟩

/-- Witness for claim C7 at a concrete input: an unregistered kind against
the full registry. -/
theorem claim_C7_witness :
    make_element goodRegistry "frobnicator" none =
      .error (.missingElement "frobnicator") :=
  (claim_C7 goodRegistry "frobnicator" none (by decide)).1

/-- Claim C8, confirmed: whenever run returns any error other than a state
change failure (usage error, gst init failure, missing element, property
configuration failure, add or link failure, watch registration failure),
no state request of any kind was ever issued: the Playing transition is
never requested, so the pipeline never executes partially. -/
theorem claim_C8 (env : Env) (args : List String) (e : RunError)
    (h1 : (run env args).outcome = .error e)
    (h2 : e ≠ .stateChangeFailed) :
    ∀ s, Effect.setState s ∉ (run env args).trace := by
  intro s hmem
  unfold run at h1 hmem
  by_cases ha : args.length ≠ 3
  · rw [if_pos ha] at h1 hmem
    cases args with
    | nil => simp at h1
    | cons prog rest => simp at hmem
  · rw [if_neg ha] at h1 hmem
    rcases runAfterBuild_cases env
      (buildPipeline env (args.getD 1 "") (args.getD 2 "")
        [.println ("device: " ++ args.getD 1 "" ++ " location: " ++
          args.getD 2 "")]) with hc | hc
    · rw [hc] at h1
      exact h2 (runFromPlay_error env _ e h1)
    · rw [hc] at hmem
      have hstep := buildPipeline_setState env _ _ _ s hmem
      simp at hstep

/-- Witness for claim C8 at a concrete input: with jpegdec unregistered the
build fails with MissingElement jpegdec and no Playing request is made. -/
theorem claim_C8_witness :
    Effect.setState .playing ∉ (run envMissingJpegdec ["p", "d", "l"]).trace :=
  claim_C8 envMissingJpegdec ["p", "d", "l"] (.missingElement "jpegdec")
    (by decide) (by decide) .playing

/-- Claim C9, confirmed (implicit): constructing the UsageError reads the
argument at index 0, so for an empty argument vector the arity-check branch
panics on out-of-bounds indexing instead of returning a UsageError value,
while any non-empty vector of wrong arity does return the UsageError built
from its first entry. -/
theorem claim_C9 (env : Env) :
    run env [] = ⟨.panicked, []⟩ ∧
    ∀ prog, run env [prog] = ⟨.error (.usage prog), []⟩ :=
  ⟨rfl, fun _ => rfl⟩

/-- Claim C10, confirmed (implicit): both the Error and the Warning branch
of the callback unwrap the optional debug field, so for any Error or
Warning message without a debug string the dispatch panics on the
event-delivery context right after the unconditional log line: no error
record is built, nothing is written to stderr, the loop state is untouched;
a full run delivering such a message ends in a panic. -/
theorem claim_C10 :
    (∀ src err ls tr,
      dispatchMessage (.error src err none) ls tr =
        ⟨ls, tr ++ [.println "Got Error message"], false⟩) ∧
    (∀ src err ls tr,
      dispatchMessage (.warning src err none) ls tr =
        ⟨ls, tr ++ [.println "Got Warning message"], false⟩) ∧
    (run (goodEnv [.error (some "src0") "msg0" none])
      ["p", "d", "l"]).outcome = .panicked ∧
    (run (goodEnv [.warning (some "src0") "msg0" none])
      ["p", "d", "l"]).outcome = .panicked :=
  ⟨fun _ _ _ _ => rfl, fun _ _ _ _ => rfl, rfl, rfl⟩

end GstCameraRs
